import Mathlib

/-!
# Verification of the PhytoScann leaf-analysis core

Shallow embedding of `src/leaf_analysis.py`: the segmenter
(`load_and_process_image`) and the severity calculator
(`calculate_severity`), together with proofs of the specified
properties.

Modelling choices:
* A decoded image is its HSV representation: a flat list of pixels,
  each an `HSVPixel` of three 8-bit channel values (`Nat`).  The
  external library steps (byte decoding via `cv2.imdecode` and the
  BGR→RGB→HSV colour conversions) are outside this repository; decoding
  is modelled by an `Option (List HSVPixel)` argument, `none` meaning
  `cv2.imdecode` returned no image.
* Masks are flat lists of `Nat` pixel values, matching the `uint8`
  numpy arrays of the source (`0/1` for the leaf mask after
  `astype(np.uint8)`, `0/255` for the `cv2.inRange` output).
* Python exceptions become `Except String`; the Python `float`
  percentage is embedded as an exact rational `ℚ`.
-/

/-- One HSV pixel: hue, saturation, value channels (0–255 scale). -/
structure HSVPixel where
  h : Nat
  s : Nat
  v : Nat
deriving DecidableEq, Repr

/-- `np.count_nonzero` on a mask: the number of nonzero entries. -/
def countNonzero (m : List Nat) : Nat :=
  (m.filter (fun x => x != 0)).length

/-- Source line 35–36: `leaf_mask = (saturation > 25).astype(np.uint8)`,
so each pixel of the leaf mask is `1` when its saturation channel
exceeds 25 and `0` otherwise. -/
def leafMaskPixel (p : HSVPixel) : Nat :=
  if p.s > 25 then 1 else 0

/-- Source lines 39–41: `cv2.inRange(hsv, [15,50,50], [30,255,255])`
sets a pixel to `255` when every channel lies inside the corresponding
inclusive bounds, else `0`. -/
def inRangePixel (p : HSVPixel) : Nat :=
  if 15 ≤ p.h ∧ p.h ≤ 30 ∧ 50 ≤ p.s ∧ p.s ≤ 255 ∧ 50 ≤ p.v ∧ p.v ≤ 255
  then 255 else 0

/-- Source line 42: `infected_mask = infected_mask & leaf_mask`, a
numpy bitwise AND between the `0/255`-valued `inRange` output and the
`0/1`-valued leaf mask. -/
def infectedMaskPixel (p : HSVPixel) : Nat :=
  Nat.land (inRangePixel p) (leafMaskPixel p)

/-- `load_and_process_image` from `src/leaf_analysis.py` (lines 5–47):
given the path (used only in the error message) and the decode result,
either fail with the wrapped decode error (`ValueError` re-raised as
`Exception("Error processing image: ...")`) or return the image with
the leaf mask and the intersected infected mask. -/
def load_and_process_image (image_path : String)
    (decoded : Option (List HSVPixel)) :
    Except String (List HSVPixel × List Nat × List Nat) :=
  match decoded with
  | none => Except.error
      ("Error processing image: " ++ ("Unable to load image from: " ++ image_path))
  | some hsv =>
      Except.ok (hsv, hsv.map leafMaskPixel, hsv.map infectedMaskPixel)

/-- The record returned by `calculate_severity`. -/
structure SeverityResult where
  percentage : ℚ
  level : String
deriving DecidableEq, Repr

/-- `calculate_severity` from `src/leaf_analysis.py` (lines 49–81):
count the nonzero leaf pixels, fail if there are none, otherwise
compute `infected / total * 100` and bucket it with strict `< 10` and
`< 30` comparisons. -/
def calculate_severity (leaf_mask infected_mask : List Nat) :
    Except String SeverityResult :=
  let total_leaf_pixels := countNonzero leaf_mask
  if total_leaf_pixels = 0 then
    Except.error "The leaf mask is empty, unable to calculate severity."
  else
    let infected_pixels := countNonzero infected_mask
    let severity_percentage : ℚ :=
      ((infected_pixels : ℚ) / (total_leaf_pixels : ℚ)) * 100
    let severity_level :=
      if severity_percentage < 10 then "Low"
      else if severity_percentage < 30 then "Moderate"
      else "High"
    Except.ok ⟨severity_percentage, severity_level⟩

/-- Modelled from the spec (design note on the intersection): the
explicit boolean AND of the two masks' truth values, against which the
implemented bitwise intersection is compared. -/
def booleanIntersectPixel (p : HSVPixel) : Bool :=
  (inRangePixel p != 0) && (leafMaskPixel p != 0)

/-! ## Helper lemmas (shared) -/

/-- Unfolding lemma: counting nonzero entries of a cons. -/
theorem countNonzero_cons (a : Nat) (l : List Nat) :
    countNonzero (a :: l) = (if a ≠ 0 then 1 else 0) + countNonzero l := by
  simp only [countNonzero, List.filter_cons]
  by_cases ha : a = 0
  · simp [ha]
  · simp [ha]
    omega

/-- Pixelwise subset relation between two masks of equal length:
every nonzero pixel of the first is nonzero in the second. -/
def maskSubset (infected leaf : List Nat) : Prop :=
  List.Forall₂ (fun a b => a ≠ 0 → b ≠ 0) infected leaf

/-- Two masks of equal length with the same nonzero positions. -/
def sameSupport (m1 m2 : List Nat) : Prop :=
  List.Forall₂ (fun a b => a ≠ 0 ↔ b ≠ 0) m1 m2

/-- A pixelwise subset mask has at most as many nonzero pixels. -/
theorem countNonzero_le_of_subset (infected leaf : List Nat)
    (h : maskSubset infected leaf) :
    countNonzero infected ≤ countNonzero leaf := by
  induction h with
  | nil => exact Nat.le_refl 0
  | cons hab htail ih =>
      rename_i a b l1 l2
      rw [countNonzero_cons, countNonzero_cons]
      by_cases ha : a = 0
      · simp only [ha]
        split_ifs <;> omega
      · have hb : b ≠ 0 := hab ha
        simp [ha, hb]
        omega

/-- Masks with the same nonzero positions have the same nonzero count. -/
theorem countNonzero_eq_of_sameSupport (m1 m2 : List Nat)
    (h : sameSupport m1 m2) :
    countNonzero m1 = countNonzero m2 := by
  induction h with
  | nil => rfl
  | cons hab htail ih =>
      rename_i a b l1 l2
      rw [countNonzero_cons, countNonzero_cons, ih]
      by_cases ha : a = 0
      · have hb : b = 0 := by
          by_contra hb
          exact (hab.mpr hb) ha
        simp [ha, hb]
      · have hb : b ≠ 0 := hab.mp ha
        simp [ha, hb]

/-- The bitwise AND of the two mask pixel values is nonzero exactly
when both operands are nonzero. -/
theorem infectedMaskPixel_ne_zero_iff (p : HSVPixel) :
    infectedMaskPixel p ≠ 0 ↔ (inRangePixel p ≠ 0 ∧ leafMaskPixel p ≠ 0) := by
  unfold infectedMaskPixel inRangePixel leafMaskPixel
  split_ifs <;> decide

/-! ## Claim theorems -/

/-- C1: for every leaf mask with at least one nonzero pixel and every
infected mask, `calculate_severity` succeeds and the level it returns
is determined from the computed percentage by half-open intervals with
strict comparisons against 10 and 30: percentage in `[0,10)` yields
"Low", `[10,30)` yields "Moderate", and `≥ 30` yields "High" (so
exactly 10 yields "Moderate" and exactly 30 yields "High"). -/
theorem calculate_severity_level_buckets (leaf_mask infected_mask : List Nat)
    (hne : countNonzero leaf_mask ≠ 0) :
    ∃ r, calculate_severity leaf_mask infected_mask = Except.ok r ∧
      (0 ≤ r.percentage → r.percentage < 10 → r.level = "Low") ∧
      (10 ≤ r.percentage → r.percentage < 30 → r.level = "Moderate") ∧
      (30 ≤ r.percentage → r.level = "High") := by
  unfold calculate_severity
  rw [if_neg hne]
  refine ⟨_, rfl, ?_, ?_, ?_⟩ <;> intros <;> split_ifs <;>
    first | rfl | linarith

/-- Witness for C1: at the one-pixel leaf mask `[1]` with empty
infected mask `[0]` the percentage is 0 and the level buckets hold. -/
theorem calculate_severity_level_buckets_witness :
    ∃ r, calculate_severity [1] [0] = Except.ok r ∧
      (0 ≤ r.percentage → r.percentage < 10 → r.level = "Low") ∧
      (10 ≤ r.percentage → r.percentage < 30 → r.level = "Moderate") ∧
      (30 ≤ r.percentage → r.level = "High") :=
  calculate_severity_level_buckets [1] [0] (by norm_num [countNonzero])

/-- C2: for every leaf mask with at least one nonzero pixel and every
infected mask, the percentage returned by `calculate_severity` equals
100 times the nonzero count of the infected mask divided by the
nonzero count of the leaf mask. -/
theorem calculate_severity_percentage_formula
    (leaf_mask infected_mask : List Nat)
    (hne : countNonzero leaf_mask ≠ 0) :
    ∃ r, calculate_severity leaf_mask infected_mask = Except.ok r ∧
      r.percentage =
        100 * (countNonzero infected_mask : ℚ) / (countNonzero leaf_mask : ℚ) := by
  unfold calculate_severity
  rw [if_neg hne]
  exact ⟨_, rfl, by ring⟩

/-- Witness for C2: at masks `[1]` and `[1]` the percentage is
`100 * 1 / 1`. -/
theorem calculate_severity_percentage_formula_witness :
    ∃ r, calculate_severity [1] [1] = Except.ok r ∧
      r.percentage =
        100 * (countNonzero [1] : ℚ) / (countNonzero [1] : ℚ) :=
  calculate_severity_percentage_formula [1] [1] (by norm_num [countNonzero])

/-- C3: `calculate_severity` fails with the empty-leaf error exactly
when the leaf mask has no nonzero pixel; an `Except.error` result
carries no `SeverityResult`, so no division happens and no record is
produced on that path. -/
theorem calculate_severity_error_iff_empty_leaf
    (leaf_mask infected_mask : List Nat) :
    calculate_severity leaf_mask infected_mask =
      Except.error "The leaf mask is empty, unable to calculate severity." ↔
    countNonzero leaf_mask = 0 := by
  unfold calculate_severity
  by_cases h : countNonzero leaf_mask = 0 <;> simp [h]

/-- C4: for every successfully decoded image, the infected mask
returned by `load_and_process_image` is a pixelwise subset of the
leaf mask: any pixel nonzero in the infected mask is nonzero in the
leaf mask, because the infected mask is intersected with the leaf
mask before return. -/
theorem infected_mask_subset_leaf_mask (image_path : String)
    (hsv img : List HSVPixel) (leaf_mask infected_mask : List Nat)
    (hok : load_and_process_image image_path (some hsv) =
      Except.ok (img, leaf_mask, infected_mask))
    (i : Nat) (h1 : i < infected_mask.length) (h2 : i < leaf_mask.length) :
    infected_mask.get ⟨i, h1⟩ ≠ 0 → leaf_mask.get ⟨i, h2⟩ ≠ 0 := by
  unfold load_and_process_image at hok
  injection hok with hok
  simp only [Prod.mk.injEq] at hok
  obtain ⟨rfl, rfl, rfl⟩ := hok
  simp only [List.get_eq_getElem, List.getElem_map]
  intro hne
  exact ((infectedMaskPixel_ne_zero_iff _).mp hne).2

/-- Witness for C4: a one-pixel image whose pixel is both leaf and
in the infected range; its leaf-mask pixel is nonzero. -/
theorem infected_mask_subset_leaf_mask_witness : (1 : Nat) ≠ 0 :=
  infected_mask_subset_leaf_mask "x" [⟨20, 100, 100⟩] [⟨20, 100, 100⟩]
    [1] [1] rfl 0 (by decide) (by decide) (by decide)

/-- C5: for every input pair where the leaf mask has a nonzero pixel
and the infected mask is a pixelwise subset of the leaf mask,
`calculate_severity` returns a record whose percentage lies in
`[0, 100]` and whose level is one of "Low", "Moderate", "High". -/
theorem calculate_severity_result_range (leaf_mask infected_mask : List Nat)
    (hne : countNonzero leaf_mask ≠ 0)
    (hsub : maskSubset infected_mask leaf_mask) :
    ∃ r, calculate_severity leaf_mask infected_mask = Except.ok r ∧
      0 ≤ r.percentage ∧ r.percentage ≤ 100 ∧
      (r.level = "Low" ∨ r.level = "Moderate" ∨ r.level = "High") := by
  have hle := countNonzero_le_of_subset infected_mask leaf_mask hsub
  unfold calculate_severity
  rw [if_neg hne]
  refine ⟨_, rfl, ?_, ?_, ?_⟩
  · positivity
  · have hpos : (0 : ℚ) < (countNonzero leaf_mask : ℚ) := by
      exact_mod_cast Nat.pos_of_ne_zero hne
    have hc : (countNonzero infected_mask : ℚ) ≤ (countNonzero leaf_mask : ℚ) := by
      exact_mod_cast hle
    have h1 : (countNonzero infected_mask : ℚ) / (countNonzero leaf_mask : ℚ) ≤ 1 :=
      (div_le_one hpos).mpr hc
    nlinarith
  · split_ifs <;> simp

/-- Witness for C5: at masks `[1]` and `[1]` the computed record is in
range. -/
theorem calculate_severity_result_range_witness :
    ∃ r, calculate_severity [1] [1] = Except.ok r ∧
      0 ≤ r.percentage ∧ r.percentage ≤ 100 ∧
      (r.level = "Low" ∨ r.level = "Moderate" ∨ r.level = "High") :=
  calculate_severity_result_range [1] [1] (by norm_num [countNonzero])
    (List.Forall₂.cons (fun h => h) List.Forall₂.nil)

/-- C6: for every successfully decoded image, the leaf mask returned by
`load_and_process_image` is nonzero at a pixel exactly when that
pixel's saturation channel strictly exceeds 25. -/
theorem leaf_mask_iff_saturation_gt_25 (image_path : String)
    (hsv img : List HSVPixel) (leaf_mask infected_mask : List Nat)
    (hok : load_and_process_image image_path (some hsv) =
      Except.ok (img, leaf_mask, infected_mask))
    (i : Nat) (h1 : i < leaf_mask.length) (h2 : i < hsv.length) :
    leaf_mask.get ⟨i, h1⟩ ≠ 0 ↔ 25 < (hsv.get ⟨i, h2⟩).s := by
  unfold load_and_process_image at hok
  injection hok with hok
  simp only [Prod.mk.injEq] at hok
  obtain ⟨rfl, rfl, rfl⟩ := hok
  simp only [List.get_eq_getElem, List.getElem_map]
  unfold leafMaskPixel
  split_ifs with hs
  · simp [hs]
  · simpa using hs

/-- Witness for C6: a one-pixel image with saturation 100; its
leaf-mask pixel is nonzero and its saturation exceeds 25. -/
theorem leaf_mask_iff_saturation_gt_25_witness :
    (1 : Nat) ≠ 0 ↔ 25 < (100 : Nat) :=
  leaf_mask_iff_saturation_gt_25 "x" [⟨20, 100, 100⟩] [⟨20, 100, 100⟩]
    [1] [1] rfl 0 (by decide) (by decide)

/-- C7: the infected mask before intersection with the leaf mask (the
`cv2.inRange` output, pixelwise `inRangePixel`) is nonzero at a pixel
exactly when hue lies in `[15,30]`, saturation in `[50,255]` and value
in `[50,255]`, all bounds inclusive. -/
theorem infected_range_mask_iff_hsv_bounds (p : HSVPixel) :
    inRangePixel p ≠ 0 ↔
      (15 ≤ p.h ∧ p.h ≤ 30 ∧ 50 ≤ p.s ∧ p.s ≤ 255 ∧ 50 ≤ p.v ∧ p.v ≤ 255) := by
  unfold inRangePixel
  split_ifs with hcond <;> simp [hcond]

/-- C8: when decoding yields no image, `load_and_process_image` fails
with the single wrapped error naming the underlying cause, and never
returns any masks (no `Except.ok` result of any kind). -/
theorem decode_failure_wrapped_error (image_path : String) :
    load_and_process_image image_path none = Except.error
      ("Error processing image: " ++ ("Unable to load image from: " ++ image_path)) ∧
    ∀ out, load_and_process_image image_path none ≠ Except.ok out := by
  refine ⟨rfl, ?_⟩
  intro out hout
  simp [load_and_process_image] at hout

/-- Witness for C8: at a concrete path the call fails and does not
return the all-empty masks. -/
theorem decode_failure_wrapped_error_witness :
    load_and_process_image "leaf.jpg" none ≠ Except.ok ([], [], []) :=
  (decode_failure_wrapped_error "leaf.jpg").2 ([], [], [])

/-- C9: the bitwise AND intersecting the 0/255-valued `inRange` mask
with the 0/1-valued leaf mask matches the explicit boolean AND of the
two masks' truth values: `255 &&& 1 = 1`, the AND of any such pair is
nonzero exactly when both operands are, and pixelwise the implemented
`infectedMaskPixel` agrees with the spec's `booleanIntersectPixel`. -/
theorem bitwise_and_refines_boolean_and :
    Nat.land 255 1 = 1 ∧
    (∀ a b : Nat, (a = 0 ∨ a = 255) → (b = 0 ∨ b = 1) →
      (Nat.land a b ≠ 0 ↔ (a ≠ 0 ∧ b ≠ 0))) ∧
    (∀ p : HSVPixel, (infectedMaskPixel p ≠ 0 ↔ booleanIntersectPixel p = true)) := by
  refine ⟨by decide, ?_, ?_⟩
  · rintro a b (rfl | rfl) (rfl | rfl) <;> decide
  · intro p
    rw [infectedMaskPixel_ne_zero_iff]
    simp [booleanIntersectPixel]

/-- Witness for C9: the general AND fact applied at the concrete pair
`(255, 1)` shows the intersection keeps the pixel. -/
theorem bitwise_and_refines_boolean_and_witness : Nat.land 255 1 ≠ 0 :=
  (bitwise_and_refines_boolean_and.2.1 255 1 (Or.inr rfl) (Or.inr rfl)).mpr
    ⟨by decide, by decide⟩

/-- C10: `calculate_severity` depends only on the nonzero positions of
its two masks: two pairs of masks whose leaf masks share nonzero
positions and whose infected masks share nonzero positions produce
identical outcomes, so 0/1 and 0/255 encodings are interchangeable. -/
theorem calculate_severity_depends_only_on_support
    (leaf1 inf1 leaf2 inf2 : List Nat)
    (hl : sameSupport leaf1 leaf2) (hi : sameSupport inf1 inf2) :
    calculate_severity leaf1 inf1 = calculate_severity leaf2 inf2 := by
  unfold calculate_severity
  rw [countNonzero_eq_of_sameSupport leaf1 leaf2 hl,
    countNonzero_eq_of_sameSupport inf1 inf2 hi]

/-- Witness for C10: the 0/1-encoded masks `[1]`, `[1]` and the
0/255-encoded masks `[255]`, `[255]` give identical results. -/
theorem calculate_severity_depends_only_on_support_witness :
    calculate_severity [1] [1] = calculate_severity [255] [255] :=
  calculate_severity_depends_only_on_support [1] [1] [255] [255]
    (List.Forall₂.cons (by decide) List.Forall₂.nil)
    (List.Forall₂.cons (by decide) List.Forall₂.nil)
